import Mathlib

/-!
Verification development for the leveling-ai backend pipeline
(`backend/app` in the repository). Python sources are shallowly embedded:
statuses are the string values the pipeline compares against, machine floats
are modelled as rationals, and the Celery/DB side effects are modelled as
explicit action traces and state-passing functions.
-/

namespace LevelingAI

/- ============================================================
   Status machine (backend/app/constants/statuses.py and the
   member names accessed on GuideStatus by the pipeline code)
   ============================================================ -/

/-- Member names of the `GuideStatus` enum as defined in
`backend/app/constants/statuses.py` (lines 10-18). -/
def GuideStatusMembers : List String :=
  ["UPLOADED", "QUEUED", "RUNNING_EXTRACT", "RUNNING_PARSE",
   "RUNNING_GENERATE", "READY", "FAILED"]

/-- Member names accessed as `GuideStatus.<name>` by the phase executors and
tasks: `services/guide_service.py` (lines 74, 119, 161, 166, 198, 203, 215,
216, 223, 283, 342, 363), `services/generation_service.py` (lines 177, 181,
184, 195, 196, 250, 281, 463-466, 496) and `tasks/guide_pipeline.py`
(lines 46, 94, 218). -/
def pipelineReferencedStatuses : List String :=
  ["QUEUED", "EXTRACTING_TEXT", "TEXT_EXTRACTED", "PARSING_MATRIX",
   "MATRIX_PARSED", "GENERATING_EXAMPLES", "DONE",
   "FAILED_BAD_PDF", "FAILED_PARSE", "FAILED_GENERATION"]

/-- The ten states enumerated in spec section 4.1 (modelled from the spec,
for comparison with the enum actually defined in the source). -/
def specEnumeratedStatuses : List String :=
  ["QUEUED", "EXTRACTING_TEXT", "TEXT_EXTRACTED", "PARSING_MATRIX",
   "MATRIX_PARSED", "GENERATING_EXAMPLES", "DONE",
   "FAILED_BAD_PDF", "FAILED_PARSE", "FAILED_GENERATION"]

/- ============================================================
   PDF extraction quality scoring (backend/app/pdf/quality.py)
   ============================================================ -/

/-- Rounding to three decimals, `round(confidence, 3)` at quality.py line 98. -/
def round3 (q : ℚ) : ℚ := ((round (q * 1000) : ℤ) : ℚ) / 1000

/-- Quality report fields used by the pipeline (`app/pdf/types.py`);
only the fields the claims depend on are carried. -/
structure QualityReport where
  confidence : ℚ
  is_scanned_likely : Bool
  is_garbled_likely : Bool
  deriving DecidableEq, Repr

/-- Embedding of `score_extraction` (quality.py lines 50-108).  The text
statistics `char_count` and the regex pattern flags `has_matrix_signals` /
`has_table_signals` are taken as inputs (the text scanning and regex matching
of `_printable_ratio` / `_has_any_pattern` are abstracted into the parameters
`char_count`, `pr` and the two flags; `pr` is the fraction of
ASCII-printable characters of the text, a rational in [0,1]). -/
def score_extraction (char_count pages_with_text : ℕ) (pr : ℚ)
    (has_matrix_signals has_table_signals : Bool) : QualityReport :=
  -- lines 65-76: base confidence from text volume
  let base : ℚ :=
    if char_count < 800 ∨ pages_with_text = 0 then 0.10
    else if char_count ≤ 2500 then 0.40
    else 0.80
  -- lines 78-83: matrix-signal bonus
  let c1 : ℚ :=
    if has_matrix_signals ∧ 2500 < char_count then min 0.95 (base + 0.15)
    else if has_matrix_signals then min 0.85 (base + 0.10)
    else base
  -- line 61 and 85-87: garbled penalty,
  -- is_garbled_likely = (char_count > 0) and (printable_ratio < 0.85)
  let c2 : ℚ := if 0 < char_count ∧ pr < 0.85 then max 0.05 (c1 - 0.25) else c1
  -- lines 89-91: table-signal bonus
  let c3 : ℚ := if has_table_signals then min 0.95 (c2 + 0.05) else c2
  -- line 60 and 93-95: scanned hard cap,
  -- is_scanned_likely = pages_with_text == 0 or char_count < 200
  let conf : ℚ := if pages_with_text = 0 ∨ char_count < 200 then min c3 0.10 else c3
  { confidence := round3 conf
    is_scanned_likely := decide (pages_with_text = 0 ∨ char_count < 200)
    is_garbled_likely := decide (0 < char_count ∧ pr < 0.85) }

/-- Confidence as described by claim C7, which orders the adjustments as in
the spec table of section 4.3.1: matrix bonus, then table bonus, then garbled
penalty, then scanned hard cap.  Written from the claim text, to be compared
with `score_extraction`. -/
def specConfidenceC7 (char_count pages_with_text : ℕ) (pr : ℚ)
    (has_matrix_signals has_table_signals : Bool) : ℚ :=
  let base : ℚ :=
    if char_count < 800 ∨ pages_with_text = 0 then 0.10
    else if char_count ≤ 2500 then 0.40
    else 0.80
  let c1 : ℚ :=
    if has_matrix_signals ∧ 2500 < char_count then min 0.95 (base + 0.15)
    else if has_matrix_signals then min 0.85 (base + 0.10)
    else base
  let c2 : ℚ := if has_table_signals then min 0.95 (c1 + 0.05) else c1
  let c3 : ℚ := if 0 < char_count ∧ pr < 0.85 then max 0.05 (c2 - 0.25) else c2
  if pages_with_text = 0 ∨ char_count < 200 then min c3 0.10 else c3

/-- Confidence as in claim C7 amended to the order the code actually uses:
matrix bonus, then garbled penalty, then table bonus, then scanned hard cap.
Written from the amended claim text (no rounding is mentioned there), to be
compared with `score_extraction`. -/
def specConfidenceC7Amended (char_count pages_with_text : ℕ) (pr : ℚ)
    (has_matrix_signals has_table_signals : Bool) : ℚ :=
  let base : ℚ :=
    if char_count < 800 ∨ pages_with_text = 0 then 0.10
    else if char_count ≤ 2500 then 0.40
    else 0.80
  let c1 : ℚ :=
    if has_matrix_signals ∧ 2500 < char_count then min 0.95 (base + 0.15)
    else if has_matrix_signals then min 0.85 (base + 0.10)
    else base
  let c2 : ℚ := if 0 < char_count ∧ pr < 0.85 then max 0.05 (c1 - 0.25) else c1
  let c3 : ℚ := if has_table_signals then min 0.95 (c2 + 0.05) else c2
  if pages_with_text = 0 ∨ char_count < 200 then min c3 0.10 else c3

/- ============================================================
   Extract executor (backend/app/services/guide_service.py,
   GuideService.extract_pdf_text, lines 107-184)
   ============================================================ -/

/-- A write to the persistent `Guide.status` column: either the
unconditional `update_status` of `repos/leveling_guide/write.py` lines 52-61
(which also sets `error_message` when one is given), or the conditional
compare-and-set `claim_status` of lines 119-130. -/
inductive StatusWrite where
  | unconditional (dst : String) (error_message : Option String)
  | conditionalClaim (src dst : String)
  deriving DecidableEq, Repr

/-- Observable actions of the extract executor, in program order. -/
inductive ExtractAction where
  | statusWrite (w : StatusWrite)
  | downloadPdf
  | uploadText
  | upsertArtifact
  | createParseRun (status : String) (error_message : Option String)
  deriving DecidableEq, Repr

/-- Embedding of `GuideService.extract_pdf_text` (guide_service.py lines
107-184) as its trace of side-effecting actions for an existing guide.
`prior_status` is the status of the guide read at line 109; the source never
consults it.  `q` is the quality report computed at line 125. -/
def extract_pdf_text (prior_status : String) (q : QualityReport) :
    List ExtractAction :=
  -- line 164: failure condition for the confidence gate
  let bad : Bool := q.is_scanned_likely || decide (q.confidence < 0.20)
  -- lines 160-167: run status, next status and error message
  let run_status : String := if bad then "FAILED" else "SUCCESS"
  let next_status : String := if bad then "FAILED_BAD_PDF" else "TEXT_EXTRACTED"
  let error_message : Option String :=
    if bad then some "PDF looks scanned/empty (no embedded text)" else none
  [ -- line 119: update_status(guide.id, GuideStatus.EXTRACTING_TEXT)
    ExtractAction.statusWrite (StatusWrite.unconditional "EXTRACTING_TEXT" none),
    -- line 122: storage.download_bytes
    ExtractAction.downloadPdf,
    -- line 133: storage.upload_text
    ExtractAction.uploadText,
    -- lines 135-158: upsert_artifact PDF_TEXT
    ExtractAction.upsertArtifact,
    -- lines 169-179: create_parse_run
    ExtractAction.createParseRun run_status error_message,
    -- line 181: update_status(guide.id, next_status, error_message)
    ExtractAction.statusWrite (StatusWrite.unconditional next_status error_message) ]

/-- The subsequence of writes to `Guide.status` in an action trace. -/
def statusWrites (acts : List ExtractAction) : List StatusWrite :=
  acts.filterMap fun a =>
    match a with
    | ExtractAction.statusWrite w => some w
    | _ => none

/- ============================================================
   Finalize (backend/app/services/generation_service.py,
   GenerationService.finalize_phase4, lines 449-515)
   ============================================================ -/

/-- The persistent data `finalize_phase4` consults for one guide and one
prompt identity: the guide status, the count of GuideCell rows
(lines 470-474), the count of CellGeneration rows for the prompt identity
(lines 476-482) and the count of those with status SUCCESS (lines 484-490). -/
structure FinalizeState where
  status : String
  total_cells : ℕ
  total_rows : ℕ
  success : ℕ
  deriving DecidableEq, Repr

/-- Embedding of `GenerationService.finalize_phase4` (generation_service.py
lines 449-515) for an existing guide: returns the state after the call and
the status value reported in the response.  `failed = max 0 (total_rows -
success)` at line 492 is natural-number truncated subtraction here. -/
def finalize_phase4 (s : FinalizeState) : FinalizeState × String :=
  -- lines 462-468: terminal fast-return
  if s.status ∈ ["DONE", "FAILED_GENERATION", "FAILED_PARSE", "FAILED_BAD_PDF"]
  then (s, s.status)
  else
    let failed := s.total_rows - s.success
    -- line 495: mark terminal when outcomes exist for all cells
    if 0 < s.total_cells ∧ s.total_cells ≤ s.total_rows then
      let final : String := if 0 < failed then "FAILED_GENERATION" else "DONE"
      ({ s with status := final }, final)
    else (s, s.status)

/- ============================================================
   Generation kickoff fan-out (backend/app/services/
   generation_service.py, GenerationService.start_phase4,
   lines 165-255, and _chunk_ranges, lines 58-65)
   ============================================================ -/

/-- Embedding of the while loop of `GenerationService._chunk_ranges`
(generation_service.py lines 58-65) from loop index `i`.  The source loops
forever when `k = 0` and `i < n`; that case is unreachable (the caller
passes a positive chunk size) and is modelled as the empty list. -/
def chunk_ranges_go (n k i : ℕ) : List (ℕ × ℕ) :=
  if h : i < n ∧ 0 < k then
    (i, min (i + k) n) :: chunk_ranges_go n k (min (i + k) n)
  else []
termination_by n - i
decreasing_by omega

/-- `_chunk_ranges(n, chunk_size)`: partition `[0, n)` into chunks. -/
def chunk_ranges (n k : ℕ) : List (ℕ × ℕ) := chunk_ranges_go n k 0

/-- `covers l s e`: the ranges in `l` tile the interval `[s, e)`
contiguously, in order, with nonempty pieces. -/
def covers : List (ℕ × ℕ) → ℕ → ℕ → Prop
  | [], s, e => s = e
  | (a, b) :: t, s, e => a = s ∧ s < b ∧ covers t b e

/-- The data `start_phase4` consults: the guide status, the level ids in
`position` order (lines 207-212) and the competency names in `position`
order (lines 213-218). -/
structure KickoffState where
  status : String
  levels : List String
  comps : List String
  deriving DecidableEq, Repr

/-- Outcome of `start_phase4`: the early returns of lines 177-182, the
409 error of lines 184-190, the lost-claim return of lines 198-202, the
404 error of lines 220-226, or the fan-out of lines 228-255 carrying the
enqueued `generate_cells_task` arguments (level id, start, end) in enqueue
order and the number of enqueued `finalize_generation_task`s. -/
inductive KickoffResult where
  | alreadyDone (status : String)
  | alreadyGenerating (status : String)
  | invalidState (status : String)
  | missingData
  | started (tasks : List (String × ℕ × ℕ)) (finalize_count : ℕ)
  deriving DecidableEq, Repr

/-- Embedding of `GenerationService.start_phase4` (generation_service.py
lines 165-255) for an existing guide, returning the outcome and the state
after the call.  In this sequential model the claim of lines 193-197
always succeeds when it is reached, since the status was just checked to
equal MATRIX_PARSED. -/
def start_phase4 (s : KickoffState) (chunk_size : ℕ) :
    KickoffResult × KickoffState :=
  -- line 177: terminal already done
  if s.status = "DONE" then (KickoffResult.alreadyDone s.status, s)
  -- line 181: avoid double-enqueue while already generating
  else if s.status = "GENERATING_EXAMPLES" then
    (KickoffResult.alreadyGenerating s.status, s)
  -- line 184: not ready for phase 4
  else if s.status ≠ "MATRIX_PARSED" then (KickoffResult.invalidState s.status, s)
  else
    -- lines 192-204: claim MATRIX_PARSED -> GENERATING_EXAMPLES (succeeds)
    let s2 := { s with status := "GENERATING_EXAMPLES" }
    -- lines 220-226: missing levels/competencies
    if s.levels.isEmpty || s.comps.isEmpty then (KickoffResult.missingData, s2)
    else
      -- line 228: effective_chunk_size
      let effective_chunk_size :=
        if 8 < s.comps.length then chunk_size else s.comps.length
      -- line 229: ranges
      let ranges := chunk_ranges s.comps.length effective_chunk_size
      -- lines 231-238: nested enqueue loop over levels, then ranges
      let tasks :=
        (s.levels.map (fun lvl => ranges.map (fun r => (lvl, r.1, r.2)))).flatten
      -- lines 240-245: one delayed finalize task
      (KickoffResult.started tasks 1, s2)

/-- The `generate_cells_task` arguments enqueued by a kickoff outcome. -/
def enqueuedTasks : KickoffResult → List (String × ℕ × ℕ)
  | KickoffResult.started ts _ => ts
  | _ => []

/-- The number of `finalize_generation_task`s enqueued by a kickoff outcome. -/
def enqueuedFinalize : KickoffResult → ℕ
  | KickoffResult.started _ f => f
  | _ => 0

/- ============================================================
   Claim primitive (backend/app/repos/leveling_guide/write.py,
   LevelingGuideWriteRepo.claim_status, lines 119-130)
   ============================================================ -/

/-- A persistent LevelingGuide row, restricted to the columns
`claim_status` touches. -/
structure GuideRow where
  id : ℕ
  status : String
  deriving DecidableEq, Repr

/-- Embedding of `LevelingGuideWriteRepo.claim_status` (write.py lines
119-130): a single conditional UPDATE that sets `status = to_status` on the
rows matching `id = guide_id AND status = from_status`, returning the new
table and whether exactly one row was affected. -/
def claim_status (table : List GuideRow) (guide_id : ℕ)
    (from_status to_status : String) : List GuideRow × Bool :=
  let updated := table.countP
    (fun g => decide (g.id = guide_id ∧ g.status = from_status))
  (table.map (fun g =>
      if g.id = guide_id ∧ g.status = from_status
      then { g with status := to_status } else g),
   updated == 1)

/- ============================================================
   LLM structured generation (backend/app/llm/client.py,
   llm_generate_structured, lines 147-186)
   ============================================================ -/

/-- Failures the structured call can surface: the wrapped LLM errors of
`app/llm/errors.py` raised by `llm_generate`, or a raw
`json.JSONDecodeError` / pydantic `ValidationError` escaping
`llm_generate_structured` itself. -/
inductive LLMFailure where
  | nonRetryable (msg : String)
  | retryable (msg : String)
  | jsonOrSchemaError (msg : String)
  deriving DecidableEq, Repr

/-- One `llm_generate` invocation as observed by `llm_generate_structured`:
the purpose and the variables passed down (field `vars`, called `variables`
in the source, a reserved word here). -/
structure LLMCall where
  purpose : String
  vars : List (String × String)
  deriving DecidableEq, Repr

/-- The repair instruction string set at client.py lines 168-174. -/
def repair_instructions : String :=
  "You MUST return valid JSON only. Escape all quotes and newlines inside strings. Do not include any raw line breaks inside string values. No markdown. No trailing commas. Return EXACTLY the schema with correct types."

/-- Python dict copy followed by key assignment, for a dict modelled as an
association list in insertion order. -/
def set_var (vars : List (String × String)) (k v : String) :
    List (String × String) :=
  if vars.any (fun p => p.1 == k)
  then vars.map (fun p => if p.1 = k then (k, v) else p)
  else vars ++ [(k, v)]

/-- Embedding of `llm_generate_structured` (client.py lines 147-186) over a
provider oracle `respond` (the outcome of one `llm_generate` invocation for
given variables: a response text, or a raised LLM error) and a parser oracle
`parse` (`json.loads` plus `schema.model_validate`: a value, or the message
of the `JSONDecodeError` / `ValidationError`).  Returns the list of
`llm_generate` invocations made, in order, and the outcome. -/
def llm_generate_structured {T : Type}
    (respond : List (String × String) → Except LLMFailure String)
    (parse : String → Except String T)
    (purpose : String) (vars0 : List (String × String)) :
    List LLMCall × Except LLMFailure T :=
  let call1 : LLMCall := ⟨purpose, vars0⟩
  match respond vars0 with
  | Except.error e => ([call1], Except.error e)
  | Except.ok text1 =>
    match parse text1 with
    | Except.ok t => ([call1], Except.ok t)
    | Except.error _ =>
      -- lines 167-174: copy variables, set __REPAIR_INSTRUCTIONS__
      let vars2 := set_var vars0 "__REPAIR_INSTRUCTIONS__" repair_instructions
      let call2 : LLMCall := ⟨purpose ++ "_repair", vars2⟩
      match respond vars2 with
      | Except.error e => ([call1, call2], Except.error e)
      | Except.ok text2 =>
        -- lines 184-185: no try/except around the second parse: a failure
        -- escapes as the raw JSONDecodeError / ValidationError
        match parse text2 with
        | Except.ok t => ([call1, call2], Except.ok t)
        | Except.error e =>
          ([call1, call2], Except.error (LLMFailure.jsonOrSchemaError e))

/- ============================================================
   Batch semantic validation (backend/app/services/
   generation_service.py, lines 70-151)
   ============================================================ -/

/-- ASCII whitespace, the characters Python `str.strip()` and the regex
class `\s` treat as whitespace (non-ASCII whitespace is out of scope of
this embedding). -/
def isWsChar (c : Char) : Bool :=
  c = ' ' || c = '\t' || c = '\n' || c = '\r' || c = '\x0b' || c = '\x0c'

/-- Sentence terminators of `_count_sentences` (line 74): the regex class
`[.!?]`. -/
def isTermChar (c : Char) : Bool := c = '.' || c = '!' || c = '?'

/-- Python `str.strip()` on the character list. -/
def stripChars (l : List Char) : List Char :=
  ((l.dropWhile isWsChar).reverse.dropWhile isWsChar).reverse

/-- Python `str.strip()`. -/
def strip (s : String) : String := String.mk (stripChars s.data)

/-- `s.strip()` is empty, i.e. `s` is all whitespace; models Python
truthiness of a stripped string (lines 132-136). -/
def isBlank (s : String) : Bool := s.data.all isWsChar

/-- Python `str.lower()` (ASCII). -/
def lowerStr (s : String) : String := String.mk (s.data.map Char.toLower)

/-- Collapse every maximal whitespace run into one space, the effect of
`re.sub(r"\s+", " ", s)` (line 71); `prevWs` records whether the previous
character belonged to a whitespace run. -/
def squeezeWsGo : Bool → List Char → List Char
  | _, [] => []
  | prevWs, c :: rest =>
    if isWsChar c then
      if prevWs then squeezeWsGo true rest
      else ' ' :: squeezeWsGo true rest
    else c :: squeezeWsGo false rest

/-- Embedding of `GenerationService._normalize_text` (lines 70-71):
`re.sub(r"\s+", " ", s.strip()).lower()`. -/
def normalize_text (s : String) : String :=
  lowerStr (String.mk (squeezeWsGo false (stripChars s.data)))

/-- Count the segments of `l` between sentence-terminator runs that contain
a non-whitespace character; `flag` is true when the current segment has one.
This is `len([p for p in re.split(r"[.!?]+", s.strip()) if p.strip()])`:
empty segments produced between adjacent terminators are exactly those the
truthiness filter drops. -/
def countSentencesGo : List Char → Bool → ℕ
  | [], flag => if flag then 1 else 0
  | c :: rest, flag =>
    if isTermChar c then (if flag then 1 else 0) + countSentencesGo rest false
    else countSentencesGo rest (flag || !(isWsChar c))

/-- Embedding of `GenerationService._count_sentences` (lines 73-75). -/
def count_sentences (s : String) : ℕ := countSentencesGo s.data false

/-- `needle` occurs at the start of `hay`. -/
def leadsList : List Char → List Char → Bool
  | [], _ => true
  | _ :: _, [] => false
  | a :: as, b :: bs => a == b && leadsList as bs

/-- `needle` occurs somewhere in `hay`: Python `needle in hay`. -/
def containsSub : List Char → List Char → Bool
  | [], needle => needle.isEmpty
  | c :: t, needle => leadsList needle (c :: t) || containsSub t needle

/-- Python substring membership `needle in hay` on strings. -/
def strContains (hay needle : String) : Bool := containsSub hay.data needle.data

/-- The denylist of `_find_forbidden_terms` (generation_service.py lines
85-94), in source order. -/
def deny : List String :=
  ["redis", "redis cloud",
   "kafka", "kubernetes", "docker",
   "aws", "gcp", "azure",
   "spark", "datadog", "opentelemetry",
   "terraform", "helm",
   "postgres", "mysql", "mongodb",
   "grpc", "protobuf",
   "vault"]

/-- Embedding of `GenerationService._find_forbidden_terms` (lines 84-101):
the denylist terms that occur in the lowercased text but not in the
lowercased allowed corpus. -/
def find_forbidden_terms (text allowed_corpus : String) : List String :=
  let allowed_lower := lowerStr allowed_corpus
  let out_lower := lowerStr text
  deny.filter (fun term =>
    strContains out_lower term && ! strContains allowed_lower term)

/-- One entry of the `items` list built by `generate_level_chunk`
(line 335): a competency name and the cell text. -/
structure ItemIn where
  competency : String
  cell_text : String
  deriving DecidableEq, Repr

/-- Embedding of `GenerationService._build_allowed_corpus` (lines 77-82):
base context, then for each item its competency and cell text, joined by
newlines. -/
def build_allowed_corpus (base_context : String) (items : List ItemIn) : String :=
  String.intercalate "\n"
    (base_context :: (items.map (fun it => [it.competency, it.cell_text])).flatten)

/-- `GeneratedExample` of `schemas/generation_schema.py` (field
`exampleText` is called `example` in the source, a reserved word here). -/
structure GeneratedExample where
  title : String
  exampleText : String
  deriving DecidableEq, Repr

/-- `CompetencyExamples` of `schemas/generation_schema.py`. -/
structure CompetencyExamples where
  competency : String
  examples : List GeneratedExample
  deriving DecidableEq, Repr

/-- `GenerateExamplesBatchResult` of `schemas/generation_schema.py`. -/
structure GenerateExamplesBatchResult where
  level : String
  results : List CompetencyExamples
  deriving DecidableEq, Repr

/-- The per-example checks of `_validate_batch_result` (lines 131-144),
returning the first error or none.  Error strings carry the fixed prefixes
of the source (the interpolated values are appended where simple). -/
def validateExample (comp_name allowed_corpus : String)
    (ex : GeneratedExample) : Option String :=
  -- lines 132-136: strip, reject empty title/body
  if isBlank ex.title = true ∨ isBlank ex.exampleText = true then
    some ("Empty title/example in competency " ++ comp_name)
  -- lines 138-140: sentence count (source local sc) within 2..5
  else if count_sentences (strip ex.exampleText) < 2 ∨
      5 < count_sentences (strip ex.exampleText) then
    some ("Example length out of range (2-4 sentences) in " ++ comp_name)
  -- lines 142-144: denylist check (source local forbidden) on "title body"
  else if find_forbidden_terms
      (strip ex.title ++ " " ++ strip ex.exampleText) allowed_corpus ≠ [] then
    some ("Forbidden terms not present in inputs: " ++
      String.intercalate ", " (find_forbidden_terms
        (strip ex.title ++ " " ++ strip ex.exampleText) allowed_corpus))
  else none

/-- The example loop of lines 131-146 with its early returns. -/
def validateExamples (comp_name allowed_corpus : String) :
    List GeneratedExample → Option String
  | [] => none
  | ex :: rest =>
    match validateExample comp_name allowed_corpus ex with
    | some e => some e
    | none => validateExamples comp_name allowed_corpus rest

/-- The per-competency checks of lines 124-149: non-empty name, exactly 3
examples, per-example checks, then distinctness of the normalized bodies
(`len(set(norm_examples)) != 3`, sets modelled by `List.dedup`). -/
def validateEntry (allowed_corpus : String) (r : CompetencyExamples) :
    Option String :=
  if r.competency = "" then some "Missing competency name in output"
  else if r.examples.length ≠ 3 then
    some ("Competency " ++ r.competency ++ " must have exactly 3 examples")
  else
    match validateExamples r.competency allowed_corpus r.examples with
    | some e => some e
    | none =>
      -- source local norm_examples; a Python set is modelled by List.dedup
      if (r.examples.map
          (fun ex => normalize_text (strip ex.exampleText))).dedup.length ≠ 3 then
        some ("Duplicate/near-duplicate examples in competency " ++ r.competency)
      else none

/-- The result loop of lines 124-149 with its early returns. -/
def validateEntries (allowed_corpus : String) :
    List CompetencyExamples → Option String
  | [] => none
  | r :: rest =>
    match validateEntry allowed_corpus r with
    | some e => some e
    | none => validateEntries allowed_corpus rest

/-- Embedding of `GenerationService._validate_batch_result` (lines
103-151), returning the `(ok, error)` pair. -/
def validate_batch_result (result : GenerateExamplesBatchResult)
    (items : List ItemIn) (base_context : String) : Bool × Option String :=
  -- lines 109-110: falsy results list
  if result.results = [] then (false, some "Missing results in LLM output")
  -- lines 112-113: one entry per input item
  else if result.results.length ≠ items.length then
    (false, some "Result count mismatch")
  else
    -- lines 115-120: every truthy input competency appears in the output
    -- (source locals got_competencies, missing)
    if (items.map (fun it => it.competency)).filter
        (fun c => (c != "") &&
          ! (result.results.map (fun r => r.competency)).contains c) ≠ [] then
      (false, some "Missing competencies in output")
    else
      -- lines 122-151 (source local allowed_corpus)
      match validateEntries (build_allowed_corpus base_context items)
          result.results with
      | some e => (false, some e)
      | none => (true, none)

/-- The denylist as enumerated by claim C8 (18 terms, without the
`redis cloud` entry of the source). -/
def denyC8 : List String :=
  ["kafka", "kubernetes", "docker", "aws", "gcp", "azure", "spark",
   "datadog", "opentelemetry", "terraform", "helm", "postgres", "mysql",
   "mongodb", "grpc", "protobuf", "vault", "redis"]

/-- Acceptance as stated by claim C8, written from the claim text: one
entry per item, coverage of every input competency, exactly 3 examples
with non-blank title and body, 2-5 sentences, no denylist term (the 18
enumerated ones) unless it appears in `base_context` or some `cell_text`,
and pairwise-distinct normalized bodies. -/
def specAcceptsC8 (result : GenerateExamplesBatchResult)
    (items : List ItemIn) (base_context : String) : Prop :=
  result.results.length = items.length ∧
  (∀ it ∈ items,
    it.competency ∈ result.results.map (fun r => r.competency)) ∧
  (∀ r ∈ result.results,
    r.examples.length = 3 ∧
    (∀ ex ∈ r.examples,
      ¬ isBlank ex.title = true ∧ ¬ isBlank ex.exampleText = true ∧
      2 ≤ count_sentences (strip ex.exampleText) ∧
      count_sentences (strip ex.exampleText) ≤ 5 ∧
      (∀ term ∈ denyC8,
        strContains (lowerStr (strip ex.title ++ " " ++ strip ex.exampleText))
            term = true →
          (strContains (lowerStr base_context) term = true ∨
           ∃ it ∈ items, strContains (lowerStr it.cell_text) term = true))) ∧
    (r.examples.map (fun ex => normalize_text (strip ex.exampleText))).Nodup)

/-- Acceptance as stated by claim C8 amended to the source behaviour:
non-empty result list, the 19-term denylist including `redis cloud`, the
allowed corpus including the competency names (newline-joined), coverage
required only for non-empty input competency names, and non-empty output
competency names. -/
def specAcceptsC8Amended (result : GenerateExamplesBatchResult)
    (items : List ItemIn) (base_context : String) : Prop :=
  result.results ≠ [] ∧
  result.results.length = items.length ∧
  (∀ it ∈ items, it.competency ≠ "" →
    it.competency ∈ result.results.map (fun r => r.competency)) ∧
  (∀ r ∈ result.results,
    r.competency ≠ "" ∧
    r.examples.length = 3 ∧
    (∀ ex ∈ r.examples,
      ¬ isBlank ex.title = true ∧ ¬ isBlank ex.exampleText = true ∧
      2 ≤ count_sentences (strip ex.exampleText) ∧
      count_sentences (strip ex.exampleText) ≤ 5 ∧
      (∀ term ∈ deny,
        strContains (lowerStr (strip ex.title ++ " " ++ strip ex.exampleText))
            term = true →
          strContains (lowerStr (build_allowed_corpus base_context items))
            term = true)) ∧
    (r.examples.map (fun ex => normalize_text (strip ex.exampleText))).Nodup)

/- ============================================================
   Theorems
   ============================================================ -/

/-- Claim C1 (code_bug evidence): the guide status machine does not define the
states enumerated in spec section 4.1.  The enum in
`constants/statuses.py` defines `UPLOADED, QUEUED, RUNNING_EXTRACT,
RUNNING_PARSE, RUNNING_GENERATE, READY, FAILED`, while the executors and
tasks reference members such as `EXTRACTING_TEXT` that are not defined
members, so `GuideStatus.EXTRACTING_TEXT` raises an AttributeError at
runtime (for example `guide_service.py` line 119). -/
theorem C1_status_enum_mismatch :
    "EXTRACTING_TEXT" ∈ pipelineReferencedStatuses ∧
    "EXTRACTING_TEXT" ∉ GuideStatusMembers ∧
    ¬ (∀ m ∈ pipelineReferencedStatuses, m ∈ GuideStatusMembers) ∧
    GuideStatusMembers ≠ specEnumeratedStatuses := by
  decide

/-- Claim C7 counterexample: the claim applies the table bonus before the
garbled penalty (the order of the spec table), but the code applies the
garbled penalty first.  At `char_count = 2600`, `pages_with_text = 1`,
printable fraction `4/5`, with matrix and table signals, the code yields
confidence `0.75` while the order stated in the claim yields `0.70`. -/
theorem C7_order_counterexample :
    (score_extraction 2600 1 (4/5) true true).confidence = 0.75 ∧
    specConfidenceC7 2600 1 (4/5) true true = 0.70 ∧
    (0.75 : ℚ) ≠ 0.70 := by
  refine ⟨?_, ?_, by norm_num⟩
  · unfold score_extraction round3
    norm_num [round_eq]
  · unfold specConfidenceC7
    norm_num

set_option maxHeartbeats 1000000 in
/-- Claim C7 amended: for every input, `score_extraction` returns a
confidence in [0, 0.95] computed deterministically as base 0.10 / 0.40 /
0.80 by text volume, then the matrix bonus, then the garbled penalty
(-0.25, floor 0.05), then the table bonus (+0.05, cap 0.95), then the
scanned hard cap at 0.10 (the code applies the garbled penalty before the
table bonus, unlike the order in the spec table). -/
theorem C7_amended_confidence (char_count pages_with_text : ℕ) (pr : ℚ)
    (hm ht : Bool) :
    (score_extraction char_count pages_with_text pr hm ht).confidence =
      specConfidenceC7Amended char_count pages_with_text pr hm ht ∧
    0 ≤ (score_extraction char_count pages_with_text pr hm ht).confidence ∧
    (score_extraction char_count pages_with_text pr hm ht).confidence ≤ 0.95 := by
  unfold score_extraction specConfidenceC7Amended round3
  split_ifs <;> norm_num [round_eq]

/-- Claim C2 counterexample: for a guide whose current status is DONE and a
high-confidence quality report, the first status action of the extract
executor is the unconditional write EXTRACTING_TEXT, not a conditional
claim QUEUED to EXTRACTING_TEXT, and the executor still proceeds to the
download (so it does not return idempotently when the status is not
QUEUED). -/
theorem C2_no_claim_counterexample :
    (statusWrites (extract_pdf_text "DONE" ⟨9/10, false, false⟩)).head? =
      some (StatusWrite.unconditional "EXTRACTING_TEXT" none) ∧
    (∀ src dst : String,
      (statusWrites (extract_pdf_text "DONE" ⟨9/10, false, false⟩)).head? ≠
        some (StatusWrite.conditionalClaim src dst)) ∧
    ExtractAction.downloadPdf ∈ extract_pdf_text "DONE" ⟨9/10, false, false⟩ := by
  refine ⟨rfl, fun src dst h => by simp [statusWrites, extract_pdf_text] at h, ?_⟩
  simp [extract_pdf_text]

/-- Claim C2 amended: the extract executor performs no conditional claim;
its first status action is the unconditional write EXTRACTING_TEXT,
performed whatever the current status is, it always proceeds to the
download and extraction, and its only other status write is the final
TEXT_EXTRACTED / FAILED_BAD_PDF transition of the confidence gate. -/
theorem C2_amended_unconditional (prior_status : String) (q : QualityReport) :
    statusWrites (extract_pdf_text prior_status q) =
      [StatusWrite.unconditional "EXTRACTING_TEXT" none,
       StatusWrite.unconditional
         (if q.is_scanned_likely = true ∨ q.confidence < 0.20
          then "FAILED_BAD_PDF" else "TEXT_EXTRACTED")
         (if q.is_scanned_likely = true ∨ q.confidence < 0.20
          then some "PDF looks scanned/empty (no embedded text)" else none)] ∧
    ExtractAction.downloadPdf ∈ extract_pdf_text prior_status q := by
  by_cases h : q.is_scanned_likely = true ∨ q.confidence < 0.20 <;>
    simp [extract_pdf_text, statusWrites, h]

/-- Claim C6: for every extraction run, the executor transitions the guide
to FAILED_BAD_PDF exactly when the quality report is scanned-likely or has
confidence below 0.20 (and then the appended ParseRun is FAILED with the
scanned/empty-PDF message), and otherwise transitions to TEXT_EXTRACTED
with a SUCCESS ParseRun. -/
theorem C6_quality_gate (prior_status : String)
    (char_count pages_with_text : ℕ) (pr : ℚ) (hm ht : Bool) :
    (ExtractAction.statusWrite
        (StatusWrite.unconditional "FAILED_BAD_PDF"
          (some "PDF looks scanned/empty (no embedded text)")) ∈
      extract_pdf_text prior_status
        (score_extraction char_count pages_with_text pr hm ht) ↔
      ((score_extraction char_count pages_with_text pr hm ht).is_scanned_likely = true ∨
       (score_extraction char_count pages_with_text pr hm ht).confidence < 0.20)) ∧
    (((score_extraction char_count pages_with_text pr hm ht).is_scanned_likely = true ∨
      (score_extraction char_count pages_with_text pr hm ht).confidence < 0.20) →
      ExtractAction.createParseRun "FAILED"
          (some "PDF looks scanned/empty (no embedded text)") ∈
        extract_pdf_text prior_status
          (score_extraction char_count pages_with_text pr hm ht)) ∧
    (¬ ((score_extraction char_count pages_with_text pr hm ht).is_scanned_likely = true ∨
        (score_extraction char_count pages_with_text pr hm ht).confidence < 0.20) →
      ExtractAction.createParseRun "SUCCESS" none ∈
        extract_pdf_text prior_status
          (score_extraction char_count pages_with_text pr hm ht) ∧
      ExtractAction.statusWrite (StatusWrite.unconditional "TEXT_EXTRACTED" none) ∈
        extract_pdf_text prior_status
          (score_extraction char_count pages_with_text pr hm ht)) := by
  by_cases h : (score_extraction char_count pages_with_text pr hm ht).is_scanned_likely = true ∨
      (score_extraction char_count pages_with_text pr hm ht).confidence < 0.20 <;>
    simp [extract_pdf_text, h]

/-- Witness for C6 at a concrete input: a report for an empty scanned PDF
(char_count 0, no page with text) fails the gate with a FAILED ParseRun. -/
theorem C6_quality_gate_witness :
    ExtractAction.createParseRun "FAILED"
        (some "PDF looks scanned/empty (no embedded text)") ∈
      extract_pdf_text "QUEUED" (score_extraction 0 0 0 false false) :=
  (C6_quality_gate "QUEUED" 0 0 0 false false).2.1 (by left; decide)

/-- Claim C3 counterexample: for a guide in GENERATING_EXAMPLES with zero
GuideCell rows and zero CellGeneration rows, the claim says finalize
transitions to DONE (total_rows is at least total_cells and failed is 0),
but the code returns the current status unchanged because of the
`total_cells > 0` guard at generation_service.py line 495. -/
theorem C3_zero_cells_counterexample :
    (let s : FinalizeState :=
      { status := "GENERATING_EXAMPLES", total_cells := 0, total_rows := 0, success := 0 }
     s.total_cells ≤ s.total_rows ∧ s.total_rows - s.success = 0 ∧
       finalize_phase4 s = (s, "GENERATING_EXAMPLES") ∧
       (finalize_phase4 s).1.status ≠ "DONE") := by
  refine ⟨Nat.le_refl 0, rfl, ?_, ?_⟩ <;> simp [finalize_phase4]

/-- Claim C3 amended: finalize transitions the guide to DONE when
total_cells is positive, total_rows is at least total_cells and failed = 0,
to FAILED_GENERATION when total_cells is positive, total_rows is at least
total_cells and failed is positive (failed = total_rows - success,
truncated at 0), otherwise returns the current status without mutating the
state; and once the guide is in a terminal state it returns immediately
without mutating it. -/
theorem C3_amended_finalize (s : FinalizeState) :
    (s.status ∈ ["DONE", "FAILED_GENERATION", "FAILED_PARSE", "FAILED_BAD_PDF"] →
      finalize_phase4 s = (s, s.status)) ∧
    (s.status ∉ ["DONE", "FAILED_GENERATION", "FAILED_PARSE", "FAILED_BAD_PDF"] →
      (0 < s.total_cells → s.total_cells ≤ s.total_rows → s.total_rows - s.success = 0 →
        finalize_phase4 s = ({ s with status := "DONE" }, "DONE")) ∧
      (0 < s.total_cells → s.total_cells ≤ s.total_rows → 0 < s.total_rows - s.success →
        finalize_phase4 s = ({ s with status := "FAILED_GENERATION" }, "FAILED_GENERATION")) ∧
      (¬ (0 < s.total_cells ∧ s.total_cells ≤ s.total_rows) →
        finalize_phase4 s = (s, s.status))) := by
  constructor
  · intro h
    simp [finalize_phase4, h]
  · intro h
    refine ⟨fun h1 h2 h3 => ?_, fun h1 h2 h3 => ?_, fun h1 => ?_⟩ <;>
      simp [finalize_phase4, h, h1, *]

/-- Witness for C3 amended at concrete inputs: a guide in
GENERATING_EXAMPLES with 4 cells, 4 generation rows and 3 successes is
transitioned to FAILED_GENERATION. -/
theorem C3_amended_finalize_witness :
    finalize_phase4
        { status := "GENERATING_EXAMPLES", total_cells := 4, total_rows := 4,
          success := 3 } =
      ({ status := "FAILED_GENERATION", total_cells := 4, total_rows := 4,
         success := 3 }, "FAILED_GENERATION") :=
  ((C3_amended_finalize
      { status := "GENERATING_EXAMPLES", total_cells := 4, total_rows := 4,
        success := 3 }).2 (by decide)).2.1 (by decide) (by decide) (by decide)


/-- Helper: the chunk loop tiles `[i, n)` when the chunk size is positive. -/
lemma chunk_ranges_go_covers (n k : ℕ) (hk : 0 < k) :
    ∀ d i, n - i ≤ d → i ≤ n → covers (chunk_ranges_go n k i) i n := by
  intro d
  induction d with
  | zero =>
    intro i h0 hin
    have hi : i = n := by omega
    subst hi
    rw [chunk_ranges_go, dif_neg (by omega)]
    rfl
  | succ d ih =>
    intro i hd hin
    by_cases hi : i < n
    · rw [chunk_ranges_go, dif_pos ⟨hi, hk⟩]
      exact ⟨rfl, lt_min (by omega) hi,
        ih (min (i + k) n) (by omega) (by omega)⟩
    · have hi2 : i = n := by omega
      subst hi2
      rw [chunk_ranges_go, dif_neg (by omega)]
      rfl

/-- Helper: the chunk loop produces the ceiling of `(n - i) / k` chunks. -/
lemma chunk_ranges_go_length (n k : ℕ) (hk : 0 < k) :
    ∀ d i, n - i ≤ d → (chunk_ranges_go n k i).length = (n - i + k - 1) / k := by
  intro d
  induction d with
  | zero =>
    intro i h0
    rw [chunk_ranges_go, dif_neg (by omega)]
    simp only [List.length_nil]
    rw [Nat.div_eq_of_lt (by omega)]
  | succ d ih =>
    intro i hd
    by_cases hi : i < n
    · rw [chunk_ranges_go, dif_pos ⟨hi, hk⟩]
      simp only [List.length_cons]
      rw [ih (min (i + k) n) (by omega)]
      have h2 : n - i + k - 1 = (n - i - 1) + k := by omega
      rw [h2, Nat.add_div_right _ hk]
      congr 1
      by_cases hn : n ≤ i + k
      · have h1 : min (i + k) n = n := by omega
        rw [h1]
        have h3 : n - n + k - 1 = k - 1 := by omega
        rw [h3, Nat.div_eq_of_lt (by omega), Nat.div_eq_of_lt (by omega)]
      · have h1 : min (i + k) n = i + k := by omega
        rw [h1]
        have h3 : n - (i + k) + k - 1 = n - i - 1 := by omega
        rw [h3]
    · rw [chunk_ranges_go, dif_neg (by omega)]
      simp only [List.length_nil]
      rw [Nat.div_eq_of_lt (by omega)]

/-- Helper: flattening a constant-shape nested map multiplies lengths. -/
lemma length_flatten_map_ranges (ls : List String) (rs : List (ℕ × ℕ))
    (f : String → ℕ × ℕ → String × ℕ × ℕ) :
    ((ls.map (fun lvl => rs.map (f lvl))).flatten).length = ls.length * rs.length := by
  induction ls with
  | nil => simp
  | cons l t ih =>
    simp only [List.map_cons, List.flatten_cons, List.length_append,
      List.length_map, List.length_cons, ih]
    ring

/-- Claim C4: for a guide in MATRIX_PARSED with at least one level and one
competency, kickoff (with the default chunk_size 6) enqueues exactly
`levels * ceil(C / k)` generate_cells_task invocations, where
`k = 6 if C > 8 else C`, whose ranges tile `[0, C)` contiguously in order,
level-major; plus exactly one delayed finalize task; the guide moves to
GENERATING_EXAMPLES.  If the guide is already GENERATING_EXAMPLES or DONE,
kickoff returns without enqueueing anything or touching the state. -/
theorem C4_kickoff_fanout (s : KickoffState) (hs : s.status = "MATRIX_PARSED")
    (hl : s.levels ≠ []) (hc : s.comps ≠ []) :
    (enqueuedTasks (start_phase4 s 6).1 =
        (s.levels.map (fun lvl =>
          (chunk_ranges s.comps.length
              (if 8 < s.comps.length then 6 else s.comps.length)).map
            (fun r => (lvl, r.1, r.2)))).flatten ∧
      (enqueuedTasks (start_phase4 s 6).1).length =
        s.levels.length *
          ((s.comps.length + (if 8 < s.comps.length then 6 else s.comps.length) - 1) /
            (if 8 < s.comps.length then 6 else s.comps.length)) ∧
      covers
        (chunk_ranges s.comps.length
          (if 8 < s.comps.length then 6 else s.comps.length))
        0 s.comps.length ∧
      enqueuedFinalize (start_phase4 s 6).1 = 1 ∧
      (start_phase4 s 6).2 = { s with status := "GENERATING_EXAMPLES" }) ∧
    (∀ s2 : KickoffState,
      s2.status = "GENERATING_EXAMPLES" ∨ s2.status = "DONE" →
        enqueuedTasks (start_phase4 s2 6).1 = [] ∧
        enqueuedFinalize (start_phase4 s2 6).1 = 0 ∧
        (start_phase4 s2 6).2 = s2) := by
  have hk : 0 < (if 8 < s.comps.length then 6 else s.comps.length) := by
    split_ifs with h
    · omega
    · exact List.length_pos.mpr hc
  constructor
  · have hstep : start_phase4 s 6 =
        (KickoffResult.started
          ((s.levels.map (fun lvl =>
            (chunk_ranges s.comps.length
                (if 8 < s.comps.length then 6 else s.comps.length)).map
              (fun r => (lvl, r.1, r.2)))).flatten) 1,
         { s with status := "GENERATING_EXAMPLES" }) := by
      rw [start_phase4]
      rw [if_neg (by rw [hs]; decide), if_neg (by rw [hs]; decide),
        if_neg (by rw [hs]; simp)]
      rw [if_neg (by simp [List.isEmpty_iff, hl, hc])]
    rw [hstep]
    refine ⟨rfl, ?_, ?_, rfl, rfl⟩
    · simp only [enqueuedTasks]
      rw [length_flatten_map_ranges]
      rw [chunk_ranges, chunk_ranges_go_length _ _ hk s.comps.length 0 (by omega)]
      simp
    · exact chunk_ranges_go_covers _ _ hk s.comps.length 0 (by omega) (by omega)
  · intro s2 h2
    rcases h2 with h2 | h2 <;>
      simp [start_phase4, h2, enqueuedTasks, enqueuedFinalize]

/-- Witness for C4 at a concrete input: two levels and three competencies
give one range `[0, 3)` per level, hence 2 tasks and 1 finalize task. -/
theorem C4_kickoff_fanout_witness :
    (enqueuedTasks
        (start_phase4 ⟨"MATRIX_PARSED", ["L1", "L2"], ["a", "b", "c"]⟩ 6).1).length =
      2 ∧
    enqueuedFinalize
        (start_phase4 ⟨"MATRIX_PARSED", ["L1", "L2"], ["a", "b", "c"]⟩ 6).1 = 1 := by
  have h := C4_kickoff_fanout ⟨"MATRIX_PARSED", ["L1", "L2"], ["a", "b", "c"]⟩
    rfl (by simp) (by simp)
  exact ⟨by rw [h.1.2.1]; norm_num, h.1.2.2.2.1⟩

/-- Claim C9: when the table holds exactly one row for the guide and its
status is `a`, `claim(guide_id, a, b)` with `b` distinct from `a` returns
true and sets the status to `b`; an immediately following identical claim
returns false and leaves the table unchanged.  The claim is a single
conditional update reporting whether one row was affected. -/
theorem C9_claim_then_claim (table : List GuideRow) (gid : ℕ) (a b : String)
    (h1 : table.countP (fun g => decide (g.id = gid)) = 1)
    (h2 : ∀ g ∈ table, g.id = gid → g.status = a)
    (hab : b ≠ a) :
    (claim_status table gid a b).2 = true ∧
    (∀ g ∈ (claim_status table gid a b).1, g.id = gid → g.status = b) ∧
    claim_status (claim_status table gid a b).1 gid a b =
      ((claim_status table gid a b).1, false) := by
  have hmem : ∀ g ∈ (claim_status table gid a b).1, g.id = gid → g.status = b := by
    intro g hg hid
    simp only [claim_status, List.mem_map] at hg
    obtain ⟨g0, hg0, hfg⟩ := hg
    by_cases hp : g0.id = gid ∧ g0.status = a
    · rw [if_pos hp] at hfg
      subst hfg
      rfl
    · rw [if_neg hp] at hfg
      subst hfg
      exact absurd ⟨hid, h2 g0 hg0 hid⟩ hp
  refine ⟨?_, hmem, ?_⟩
  · have hcnt : table.countP (fun g => decide (g.id = gid ∧ g.status = a)) =
        table.countP (fun g => decide (g.id = gid)) := by
      apply List.countP_congr
      intro g hg
      simp only [decide_eq_true_eq]
      exact ⟨fun h => h.1, fun h => ⟨h, h2 g hg h⟩⟩
    simp only [claim_status]
    rw [hcnt, h1]
    rfl
  · have hzero : ∀ g ∈ (claim_status table gid a b).1,
        ¬ (decide (g.id = gid ∧ g.status = a) = true) := by
      intro g hg
      simp only [decide_eq_true_eq, not_and]
      intro hid hst
      rw [hmem g hg hid] at hst
      exact hab hst
    have hmap : ((claim_status table gid a b).1).map
        (fun g => if g.id = gid ∧ g.status = a
                  then { g with status := b } else g) =
        (claim_status table gid a b).1 := by
      conv_rhs => rw [← List.map_id (claim_status table gid a b).1]
      apply List.map_congr_left
      intro g hg
      rw [if_neg]
      · rfl
      · intro hp
        exact hzero g hg (by simp [hp.1, hp.2])
    conv_lhs => rw [claim_status]
    rw [hmap, List.countP_eq_zero.mpr hzero]
    rfl

/-- Witness for C9 at a concrete input: a one-row table in QUEUED, claimed
to EXTRACTING_TEXT twice: true then false, status ends at EXTRACTING_TEXT. -/
theorem C9_claim_then_claim_witness :
    (claim_status [⟨7, "QUEUED"⟩] 7 "QUEUED" "EXTRACTING_TEXT").2 = true ∧
    claim_status (claim_status [⟨7, "QUEUED"⟩] 7 "QUEUED" "EXTRACTING_TEXT").1
        7 "QUEUED" "EXTRACTING_TEXT" =
      ((claim_status [⟨7, "QUEUED"⟩] 7 "QUEUED" "EXTRACTING_TEXT").1, false) := by
  have h := C9_claim_then_claim [⟨7, "QUEUED"⟩] 7 "QUEUED" "EXTRACTING_TEXT"
    (by decide) (by decide) (by decide)
  exact ⟨h.1, h.2.2⟩

/-- Claim C5 counterexample: when both the original and the repaired
response fail parsing/validation, the invocation fails with the raw
JSON/validation error, not with a NonRetryable LLM error as the claim
states (client.py lines 184-185 are outside any try/except). -/
theorem C5_raw_error_counterexample :
    (llm_generate_structured (T := Unit) (fun _ => Except.ok "not json")
        (fun _ => Except.error "Invalid JSON") "parse_matrix" []).2 =
      Except.error (LLMFailure.jsonOrSchemaError "Invalid JSON") ∧
    (∀ msg : String,
      (llm_generate_structured (T := Unit) (fun _ => Except.ok "not json")
          (fun _ => Except.error "Invalid JSON") "parse_matrix" []).2 ≠
        Except.error (LLMFailure.nonRetryable msg)) ∧
    (llm_generate_structured (T := Unit) (fun _ => Except.ok "not json")
        (fun _ => Except.error "Invalid JSON") "parse_matrix" []).1.length = 2 := by
  refine ⟨rfl, ?_, rfl⟩
  intro msg h
  simp [llm_generate_structured, set_var] at h

/-- Claim C5 amended: the structured call performs at most one repair
re-issue: it issues either one call with the given variables, or that call
followed by one repair call with the same variables plus the stock
__REPAIR_INSTRUCTIONS__ string, never a third; and when both the original
and the repaired response fail parsing or schema validation, the invocation
fails by raising the raw JSON/validation error of the second parse (not a
NonRetryable wrapper). -/
theorem C5_amended_repair (T : Type)
    (respond : List (String × String) → Except LLMFailure String)
    (parse : String → Except String T)
    (purpose : String) (vars0 : List (String × String)) :
    ((llm_generate_structured respond parse purpose vars0).1 =
        [⟨purpose, vars0⟩] ∨
      (llm_generate_structured respond parse purpose vars0).1 =
        [⟨purpose, vars0⟩,
         ⟨purpose ++ "_repair",
          set_var vars0 "__REPAIR_INSTRUCTIONS__" repair_instructions⟩]) ∧
    (∀ t1 e1 t2 e2,
      respond vars0 = Except.ok t1 →
      parse t1 = Except.error e1 →
      respond (set_var vars0 "__REPAIR_INSTRUCTIONS__" repair_instructions) =
        Except.ok t2 →
      parse t2 = Except.error e2 →
      llm_generate_structured respond parse purpose vars0 =
        ([⟨purpose, vars0⟩,
          ⟨purpose ++ "_repair",
           set_var vars0 "__REPAIR_INSTRUCTIONS__" repair_instructions⟩],
         Except.error (LLMFailure.jsonOrSchemaError e2))) := by
  constructor
  · unfold llm_generate_structured
    rcases hr : respond vars0 with e | t1
    · left; rfl
    · rcases hp : parse t1 with e1 | t
      · rcases hr2 : respond
            (set_var vars0 "__REPAIR_INSTRUCTIONS__" repair_instructions) with e2 | t2
        · right; simp only [hp, hr2]
        · rcases hp2 : parse t2 with e2 | t <;> (right; simp only [hp, hr2, hp2])
      · left; simp only [hp]
  · intro t1 e1 t2 e2 hr hp hr2 hp2
    unfold llm_generate_structured
    rw [hr]
    simp only [hp]
    rw [hr2]
    simp only [hp2]

/-- Witness for C5 amended at a concrete input: with a provider that always
answers and a parser that always fails, the outcome is the two-call trace
and the raw validation error. -/
theorem C5_amended_repair_witness :
    llm_generate_structured (T := Unit) (fun _ => Except.ok "bad")
        (fun _ => Except.error "Expecting value") "generate_examples_batch" [] =
      ([⟨"generate_examples_batch", []⟩,
        ⟨"generate_examples_batch" ++ "_repair",
         set_var [] "__REPAIR_INSTRUCTIONS__" repair_instructions⟩],
       Except.error (LLMFailure.jsonOrSchemaError "Expecting value")) :=
  (C5_amended_repair Unit (fun _ => Except.ok "bad")
      (fun _ => Except.error "Expecting value") "generate_examples_batch" []).2
    "bad" "Expecting value" "bad" "Expecting value" rfl rfl rfl rfl

/-- Helper: the forbidden-term list is empty exactly when every denylist
term occurring in the text also occurs in the allowed corpus. -/
lemma find_forbidden_eq_nil_iff (text corpus : String) :
    find_forbidden_terms text corpus = [] ↔
      ∀ term ∈ deny, strContains (lowerStr text) term = true →
        strContains (lowerStr corpus) term = true := by
  unfold find_forbidden_terms
  rw [List.filter_eq_nil_iff]
  simp

/-- Helper: acceptance condition of the per-example checks. -/
lemma validateExample_eq_none_iff (name corpus : String) (ex : GeneratedExample) :
    validateExample name corpus ex = none ↔
      (¬ isBlank ex.title = true ∧ ¬ isBlank ex.exampleText = true ∧
       2 ≤ count_sentences (strip ex.exampleText) ∧
       count_sentences (strip ex.exampleText) ≤ 5 ∧
       find_forbidden_terms (strip ex.title ++ " " ++ strip ex.exampleText)
         corpus = []) := by
  unfold validateExample
  split_ifs with h1 h2 h3
  · refine iff_of_false (by simp) ?_
    rintro ⟨ht, hb, -⟩
    rcases h1 with h1 | h1
    · exact ht h1
    · exact hb h1
  · refine iff_of_false (by simp) ?_
    rintro ⟨-, -, hs1, hs2, -⟩
    rcases h2 with h2 | h2 <;> omega
  · refine iff_of_false (by simp) ?_
    rintro ⟨-, -, -, -, hf⟩
    exact h3 hf
  · push_neg at h1 h2
    exact iff_of_true rfl
      ⟨fun h => absurd h h1.1, fun h => absurd h h1.2,
       h2.1, h2.2, not_not.mp h3⟩

/-- Helper: the example loop accepts exactly when every example does. -/
lemma validateExamples_eq_none_iff (name corpus : String)
    (l : List GeneratedExample) :
    validateExamples name corpus l = none ↔
      ∀ ex ∈ l, validateExample name corpus ex = none := by
  induction l with
  | nil => simp [validateExamples]
  | cons ex rest ih =>
    unfold validateExamples
    cases h : validateExample name corpus ex with
    | none => simp [h, ih]
    | some e => simp [h]

/-- Helper: acceptance condition of the per-competency checks. -/
lemma validateEntry_eq_none_iff (corpus : String) (r : CompetencyExamples) :
    validateEntry corpus r = none ↔
      (r.competency ≠ "" ∧ r.examples.length = 3 ∧
       (∀ ex ∈ r.examples, validateExample r.competency corpus ex = none) ∧
       (r.examples.map (fun ex => normalize_text (strip ex.exampleText))).Nodup) := by
  have hiff3 : r.examples.length = 3 →
      ((r.examples.map (fun ex => normalize_text (strip ex.exampleText))).dedup.length = 3 ↔
       (r.examples.map (fun ex => normalize_text (strip ex.exampleText))).Nodup) := by
    intro hl
    have hlen : (r.examples.map
        (fun ex => normalize_text (strip ex.exampleText))).length = 3 := by
      rw [List.length_map]
      omega
    constructor
    · intro hd
      exact List.dedup_eq_self.mp
        ((List.dedup_sublist _).eq_of_length (by rw [hd, hlen]))
    · intro hn
      rw [List.dedup_eq_self.mpr hn, hlen]
  unfold validateEntry
  split_ifs with h1 h2 h3
  · refine iff_of_false (by simp) ?_
    rintro ⟨hn, -⟩
    exact hn h1
  · refine iff_of_false (by simp) ?_
    rintro ⟨-, hl, -⟩
    exact h2 hl
  · cases h : validateExamples r.competency corpus r.examples with
    | some e =>
      refine iff_of_false (by simp) ?_
      rintro ⟨-, -, hall, -⟩
      have hc := (validateExamples_eq_none_iff _ _ _).mpr hall
      rw [h] at hc
      exact Option.noConfusion hc
    | none =>
      refine iff_of_false (by simp) ?_
      rintro ⟨-, -, -, hn⟩
      exact h3 ((hiff3 (not_not.mp h2)).mpr hn)
  · cases h : validateExamples r.competency corpus r.examples with
    | some e =>
      refine iff_of_false (by simp) ?_
      rintro ⟨-, -, hall, -⟩
      have hc := (validateExamples_eq_none_iff _ _ _).mpr hall
      rw [h] at hc
      exact Option.noConfusion hc
    | none =>
      exact iff_of_true rfl
        ⟨h1, not_not.mp h2, (validateExamples_eq_none_iff _ _ _).mp h,
         (hiff3 (not_not.mp h2)).mp (not_not.mp h3)⟩

/-- Helper: the result loop accepts exactly when every entry does. -/
lemma validateEntries_eq_none_iff (corpus : String)
    (l : List CompetencyExamples) :
    validateEntries corpus l = none ↔
      ∀ r ∈ l, validateEntry corpus r = none := by
  induction l with
  | nil => simp [validateEntries]
  | cons r rest ih =>
    unfold validateEntries
    cases h : validateEntry corpus r with
    | none => simp [h, ih]
    | some e => simp [h]

/-- Helper: the coverage filter is empty exactly when every non-empty input
competency name appears among the output names. -/
lemma missing_filter_eq_nil_iff (items : List ItemIn) (got : List String) :
    ((items.map (fun it => it.competency)).filter
        (fun c => (c != "") && ! got.contains c)) = [] ↔
      ∀ it ∈ items, it.competency ≠ "" → it.competency ∈ got := by
  rw [List.filter_eq_nil_iff]
  constructor
  · intro h it hit hne
    have := h it.competency (List.mem_map_of_mem _ hit)
    simp only [Bool.and_eq_true, bne_iff_ne, ne_eq, Bool.not_eq_true',
      not_and] at this
    have h2 := this hne
    simpa [List.elem_iff] using h2
  · intro h c hc
    obtain ⟨it, hit, rfl⟩ := List.mem_map.mp hc
    simp only [Bool.and_eq_true, bne_iff_ne, ne_eq, Bool.not_eq_true', not_and]
    intro hne
    simpa [List.elem_iff] using h it hit hne

/-- Helper: the per-competency checks, phrased with the denylist-exception
condition expanded. -/
lemma validateEntry_none_iff_spec (corpus : String) (r : CompetencyExamples) :
    validateEntry corpus r = none ↔
      (r.competency ≠ "" ∧ r.examples.length = 3 ∧
       (∀ ex ∈ r.examples,
         ¬ isBlank ex.title = true ∧ ¬ isBlank ex.exampleText = true ∧
         2 ≤ count_sentences (strip ex.exampleText) ∧
         count_sentences (strip ex.exampleText) ≤ 5 ∧
         (∀ term ∈ deny,
           strContains (lowerStr (strip ex.title ++ " " ++ strip ex.exampleText))
               term = true →
             strContains (lowerStr corpus) term = true)) ∧
       (r.examples.map (fun ex => normalize_text (strip ex.exampleText))).Nodup) := by
  rw [validateEntry_eq_none_iff]
  simp only [validateExample_eq_none_iff, find_forbidden_eq_nil_iff]

/-- Claim C8 amended: the batch semantic validator accepts exactly when the
result is non-empty with one entry per item, every non-empty input
competency name appears among the output names, every output entry has a
non-empty name and exactly 3 examples with non-blank title and body, each
body has 2 to 5 sentences, no term of the source denylist (the 18 claimed
terms plus `redis cloud`) occurs in a title or body unless it occurs in
the allowed corpus (base context, competency names and cell texts), and
the 3 normalized bodies are pairwise distinct. -/
theorem C8_amended_validator (result : GenerateExamplesBatchResult)
    (items : List ItemIn) (base_context : String) :
    (validate_batch_result result items base_context).1 = true ↔
      specAcceptsC8Amended result items base_context := by
  unfold validate_batch_result specAcceptsC8Amended
  split_ifs with h1 h2 h3
  · refine iff_of_false (by simp) ?_
    rintro ⟨hne, -⟩
    exact hne h1
  · refine iff_of_false (by simp) ?_
    rintro ⟨-, hl, -⟩
    exact h2 hl
  · refine iff_of_false (by simp) ?_
    rintro ⟨-, -, hcov, -⟩
    exact h3 ((missing_filter_eq_nil_iff items _).mpr hcov)
  · cases h : validateEntries (build_allowed_corpus base_context items)
        result.results with
    | some e =>
      refine iff_of_false (by simp) ?_
      rintro ⟨-, -, -, hall⟩
      have hc := (validateEntries_eq_none_iff _ _).mpr
        (fun r hr => (validateEntry_none_iff_spec _ r).mpr (hall r hr))
      rw [h] at hc
      exact Option.noConfusion hc
    | none =>
      refine iff_of_true rfl
        ⟨h1, not_not.mp h2,
         (missing_filter_eq_nil_iff items _).mp (not_not.mp h3), ?_⟩
      intro r hr
      exact (validateEntry_none_iff_spec _ r).mp
        ((validateEntries_eq_none_iff _ _).mp h r hr)

/-- Witness for C8 amended at a concrete input: a fully valid batch for one
competency is accepted, and the acceptance conditions hold of it. -/
theorem C8_amended_validator_witness :
    (validate_batch_result
        ⟨"L1", [⟨"Ops", [⟨"Caching", "Plans the cache. Tests it well."⟩,
                         ⟨"Planning", "Plans the rollout. Documents the steps."⟩,
                         ⟨"Review", "Reviews the design. Shares results."⟩]⟩]⟩
        [⟨"Ops", "plan the work"⟩] "Company: Acme").1 = true :=
  (C8_amended_validator
      ⟨"L1", [⟨"Ops", [⟨"Caching", "Plans the cache. Tests it well."⟩,
                       ⟨"Planning", "Plans the rollout. Documents the steps."⟩,
                       ⟨"Review", "Reviews the design. Shares results."⟩]⟩]⟩
      [⟨"Ops", "plan the work"⟩] "Company: Acme").mpr
    (by unfold specAcceptsC8Amended; decide)

/-- Claim C8 counterexample: the claim enumerates an 18-term denylist, but
the source list also contains `redis cloud`.  For a batch whose body
mentions `redis cloud` while only `redis` appears in a cell text, every
condition of the claim holds (the only claimed denylist term occurring,
`redis`, appears in a cell text), yet the validator rejects the batch with
a forbidden-term error for `redis cloud`. -/
theorem C8_denylist_counterexample :
    specAcceptsC8
      ⟨"L1", [⟨"Ops", [⟨"Caching", "We use redis cloud for caching. It scales well."⟩,
                       ⟨"Planning", "Plans the cache rollout. Documents the steps."⟩,
                       ⟨"Review", "Reviews the design. Shares results with the team."⟩]⟩]⟩
      [⟨"Ops", "uses redis"⟩] "" ∧
    (validate_batch_result
      ⟨"L1", [⟨"Ops", [⟨"Caching", "We use redis cloud for caching. It scales well."⟩,
                       ⟨"Planning", "Plans the cache rollout. Documents the steps."⟩,
                       ⟨"Review", "Reviews the design. Shares results with the team."⟩]⟩]⟩
      [⟨"Ops", "uses redis"⟩] "").1 = false :=
  ⟨by unfold specAcceptsC8; decide, by decide⟩

/-- Claim C10: the forbidden-term check matches by lowercase substring
containment, not word boundaries: `overwhelm` triggers a hit for `helm`
and `flaws` triggers a hit for `aws`; a batch whose example body contains
`overwhelm` fails validation with a forbidden-term error naming `helm`,
while the same batch is accepted when the cell text also contains that
substring. -/
theorem C10_substring_denylist :
    find_forbidden_terms "Manages overwhelm during planning" "Company: Acme" =
      ["helm"] ∧
    find_forbidden_terms "has flaws" "" = ["aws"] ∧
    (validate_batch_result
        ⟨"L1", [⟨"Resilience",
          [⟨"Steady", "Manages overwhelm during planning. Stays calm under load."⟩,
           ⟨"Focus", "Keeps the team focused. Sorts tasks by value."⟩,
           ⟨"Clarity", "Explains goals simply. Checks understanding often."⟩]⟩]⟩
        [⟨"Resilience", "plan the quarter"⟩] "Company: Acme") =
      (false, some "Forbidden terms not present in inputs: helm") ∧
    (validate_batch_result
        ⟨"L1", [⟨"Resilience",
          [⟨"Steady", "Manages overwhelm during planning. Stays calm under load."⟩,
           ⟨"Focus", "Keeps the team focused. Sorts tasks by value."⟩,
           ⟨"Clarity", "Explains goals simply. Checks understanding often."⟩]⟩]⟩
        [⟨"Resilience", "handles overwhelm at the helm"⟩] "Company: Acme").1 =
      true := by
  refine ⟨by decide, by decide, by decide, by decide⟩

end LevelingAI

